import Mathlib

/-!
Shallow embedding of the WeatharrStation rendering pipeline
(weatherstream/core/{layer,compositor,scheduler,datastore}.py,
weatherstream/layers/clock.py, weatherstream/output/stream_ffmpeg.py),
with theorems settling the frozen claims about the natural-language spec.

Conventions:
* Python floats used for times and intervals are modelled as exact
  rationals (ℚ); machine rounding of IEEE doubles is outside the model.
* A PIL RGBA image is modelled as a total function from integer pixel
  coordinates to pixels; the canvas clip of a paste is made explicit.
* Python exceptions are modelled with Except; calls into external
  libraries that may raise (PIL drawing, user-supplied callbacks) are
  passed in as Except-valued arguments.
-/

namespace Weatharr

/-- One RGBA pixel; channels are byte values (0..255), kept as Nat. -/
structure Pixel where
  r : Nat
  g : Nat
  b : Nat
  a : Nat
deriving DecidableEq, Repr

/-- A full-canvas image, total over integer coordinates. -/
def Frame : Type := Int → Int → Pixel

/-- Alpha blend used by PIL Image.paste with an RGBA mask: the source
alpha channel weighs source against destination per channel
(idealised exact arithmetic; out = (src*a + dst*(255-a))/255). -/
def blend (src dst : Pixel) : Pixel :=
  { r := (src.r * src.a + dst.r * (255 - src.a)) / 255
    g := (src.g * src.a + dst.g * (255 - src.a)) / 255
    b := (src.b * src.a + dst.b * (255 - src.a)) / 255
    a := (src.a * src.a + dst.a * (255 - src.a)) / 255 }

/-- A dirty rectangle (x, y, w, h) in layer-local coordinates, as
returned by Layer.tick (core/layer.py). -/
def DirtyRect : Type := Nat × Nat × Nat × Nat

/-- State of weatherstream/core/layer.py Layer: bounds, cadence,
offscreen RGBA surface, cached content hash, visibility, z priority.
The subclass-specific redraw behaviour of tick is modelled as a pure
function of the wake time (the code's tick mutates the surface and
returns the dirty rects; surface mutation is abstracted away here). -/
structure Layer where
  x : Int
  y : Int
  w : Nat
  h : Nat
  min_interval : ℚ
  surface : Int → Int → Pixel
  lastHash : Option Int
  visible : Bool
  scale : ℚ
  z : Int
  tick : ℚ → List DirtyRect

namespace Layer

/-- Layer.__init__ (core/layer.py lines 11-20): clamps the cadence to
at least 0.001 s, starts with a transparent surface, no cached hash,
visible, and scale defaulted to 1.0 when falsy. The base-class tick
(lines 26-28) returns no dirty rects. -/
def init (x y : Int) (w h : Nat) (mi : ℚ) (sc : ℚ) : Layer :=
  { x := x
    y := y
    w := w
    h := h
    min_interval := max (1/1000) mi
    surface := fun _ _ => ⟨0, 0, 0, 0⟩
    lastHash := none
    visible := true
    scale := if sc = 0 then 1 else sc
    z := 0
    tick := fun _ => [] }

/-- Layer.set_visible (core/layer.py lines 40-47): early-return when the
flag is unchanged; on a hidden-to-visible transition the cached content
hash is invalidated so the next tick reports dirty. -/
def set_visible (L : Layer) (v : Bool) : Layer :=
  if v = L.visible then L
  else
    let L1 : Layer := { L with visible := v }
    if v then { L1 with lastHash := none } else L1

end Layer

/-- The double-buffered compositor of weatherstream/core/compositor.py. -/
structure Compositor where
  w : Nat
  h : Nat
  front : Frame
  back : Frame

namespace Compositor

/-- Compositor.__init__ (compositor.py lines 9-12): both buffers start
as opaque black w-by-h canvases. -/
def init (w h : Nat) : Compositor :=
  { w := w
    h := h
    front := fun _ _ => ⟨0, 0, 0, 255⟩
    back := fun _ _ => ⟨0, 0, 0, 255⟩ }

/-- Membership of a pixel coordinate in the w-by-h canvas. -/
def inCanvas (w h : Nat) (px py : Int) : Prop :=
  0 ≤ px ∧ px < (w : Int) ∧ 0 ≤ py ∧ py < (h : Int)

instance (w h : Nat) (px py : Int) : Decidable (inCanvas w h px py) := by
  unfold inCanvas
  infer_instance

/-- Membership of a canvas coordinate in a layer's bounds rectangle. -/
def inBounds (L : Layer) (px py : Int) : Prop :=
  L.x ≤ px ∧ px < L.x + (L.w : Int) ∧ L.y ≤ py ∧ py < L.y + (L.h : Int)

instance (L : Layer) (px py : Int) : Decidable (inBounds L px py) := by
  unfold inBounds
  infer_instance

/-- One loop iteration of Compositor.compose (compositor.py lines
17-23): skip an invisible layer, skip zero-area bounds, else paste the
layer surface at its position using its own alpha as mask (clipped to
the canvas, as PIL Image.paste clips). -/
def paintLayer (w h : Nat) (f : Frame) (L : Layer) : Frame := fun px py =>
  if L.visible = false then f px py
  else if L.w = 0 ∨ L.h = 0 then f px py
  else if inCanvas w h px py ∧ inBounds L px py then
    blend (L.surface (px - L.x) (py - L.y)) (f px py)
  else f px py

/-- The clearing paste of Compositor.compose (compositor.py line 16):
self.back.paste((0, 0, 0, 255), (0, 0, self.w, self.h)) fills the whole
canvas with opaque black. -/
def clearFrame (w h : Nat) (old : Frame) : Frame := fun px py =>
  if inCanvas w h px py then ⟨0, 0, 0, 255⟩ else old px py

/-- Compositor.compose (compositor.py lines 14-23): clear the back
buffer to opaque black over the full canvas, then paint every layer in
list order. -/
def compose (c : Compositor) (layers : List Layer) : Compositor :=
  { c with back := layers.foldl (paintLayer c.w c.h) (clearFrame c.w c.h c.back) }

/-- Compositor.present (compositor.py lines 25-27): swap front and back
and return the new front buffer. -/
def present (c : Compositor) : Compositor × Frame :=
  ({ c with front := c.back, back := c.front }, c.back)

/-- A layer changes the composed value at pixel (px, py) only when it is
visible, has non-zero-area bounds, covers the (canvas-clipped) pixel,
and its surface is not fully transparent there. -/
def affects (w h : Nat) (L : Layer) (px py : Int) : Prop :=
  L.visible = true ∧ 0 < L.w ∧ 0 < L.h ∧ inCanvas w h px py ∧ inBounds L px py ∧
    (L.surface (px - L.x) (py - L.y)).a ≠ 0

instance (w h : Nat) (L : Layer) (px py : Int) : Decidable (affects w h L px py) := by
  unfold affects
  infer_instance

end Compositor

namespace Scheduler

/-- Ordering key used by Scheduler.__init__ (scheduler.py line 12):
sorted(layers, key=lambda L: getattr(L, "z", 0)). -/
def zle (A B : Layer) : Prop := A.z ≤ B.z

instance : DecidableRel zle := fun A B => Int.decLe A.z B.z

instance : IsTotal Layer zle := ⟨fun A B => Int.le_total A.z B.z⟩

instance : IsTrans Layer zle := ⟨fun _ _ _ hab hbc => le_trans hab hbc⟩

/-- Scheduler.__init__ (scheduler.py line 12) sorts the registered
layers ascending by their z field; Python sorted is stable, modelled by
insertion sort. -/
def sortLayers (ls : List Layer) : List Layer := List.insertionSort zle ls

/-- The compose call issued from the scheduler loop (scheduler.py line
41): the compositor paints the scheduler's z-sorted layer list. -/
def schedCompose (c : Compositor) (ls : List Layer) : Compositor :=
  Compositor.compose c (sortLayers ls)

/-- Deadline with which a ticked layer is re-pushed onto the cadence
heap (scheduler.py line 36): now + L.min_interval. -/
def requeueDeadline (now : ℚ) (L : Layer) : ℚ := now + L.min_interval

end Scheduler

/-- State of weatherstream/core/scheduler.py Scheduler: the z-sorted
layer list, the optional constant frame rate, the cadence heap of
(deadline, layer-index) pairs (modelled as an unordered list with
min-oriented draining), and the next CFR presentation deadline, where
none models float("inf") when no CFR is configured. -/
structure Scheduler where
  layers : List Layer
  cfr : Option Nat
  heap : List (ℚ × Nat)
  next_cfr : Option ℚ

namespace Scheduler

/-- Scheduler.__init__ (scheduler.py lines 11-18): sort the layers by
z, keep int(cfr_hz) unless falsy, seed one heap entry per layer due
immediately, and set the first CFR deadline. -/
def init (ls : List Layer) (cfr_hz : Option Nat) (now : ℚ) : Scheduler :=
  let sorted := sortLayers ls
  let cfr : Option Nat := match cfr_hz with
    | none => none
    | some k => if k = 0 then none else some k
  { layers := sorted
    cfr := cfr
    heap := (List.range sorted.length).map (fun i => (now, i))
    next_cfr := cfr.map (fun k => now + 1 / (k : ℚ)) }

/-- One iteration of the body of Scheduler.run_forever (scheduler.py
lines 21-47) at wall-clock reading now: drain every due heap entry,
ticking its layer and collecting dirty rects only from visible layers,
re-push each ticked layer at now + min_interval; then either recompose
and present (some dirty rect was produced), re-present the unchanged
front buffer (CFR deadline reached), or present nothing. Because every
re-pushed deadline strictly exceeds now (min_interval is clamped
positive), the while-loop drain of the code visits each due entry once,
which the filter/re-push below reproduces. The sleep is timing-only and
does not change state. The returned Option Frame is the argument of the
single on_present call of the iteration, if any. -/
def step (s : Scheduler) (c : Compositor) (now : ℚ) :
    Scheduler × Compositor × Option Frame :=
  let due := s.heap.filter (fun e => decide (e.1 ≤ now))
  let rest := s.heap.filter (fun e => ! decide (e.1 ≤ now))
  let dirty : List (Nat × DirtyRect) := due.foldl (fun acc e =>
      match s.layers.get? e.2 with
      | some L =>
        let rects := L.tick now
        if L.visible then acc ++ rects.map (fun r => (e.2, r)) else acc
      | none => acc) []
  let heap1 := rest ++ due.map (fun e =>
      (now + (match s.layers.get? e.2 with | some L => L.min_interval | none => 0), e.2))
  let must_cfr : Bool := match s.cfr, s.next_cfr with
    | some _, some t => decide (t ≤ now)
    | _, _ => false
  let bump : Option ℚ := s.cfr.map (fun k => now + 1 / (k : ℚ))
  if dirty.isEmpty = false then
    let c1 := Compositor.compose c s.layers
    let pr := Compositor.present c1
    ({ s with heap := heap1, next_cfr := if s.cfr.isSome then bump else s.next_cfr },
      pr.1, some pr.2)
  else if must_cfr then
    ({ s with heap := heap1, next_cfr := if s.cfr.isSome then bump else s.next_cfr },
      c, some c.front)
  else
    ({ s with heap := heap1 }, c, none)

/-- Scheduler.run_forever (scheduler.py lines 20-47) driven by an
explicit schedule of wall-clock readings, one per loop iteration. The
code is while True with no break and no return: it has no should-stop
predicate (its only parameters are compositor and on_present), so the
embedding can only stop when the schedule of clock readings is
exhausted. Returns the final state, the frames passed to on_present in
order, and the number of loop iterations executed. -/
def run_forever (s : Scheduler) (c : Compositor) (times : List ℚ) :
    Scheduler × Compositor × List Frame × Nat :=
  match times with
  | [] => (s, c, [], 0)
  | t :: ts =>
    let r1 := step s c t
    let r2 := run_forever r1.1 r1.2.1 ts
    (r2.1, r2.2.1,
      (match r1.2.2 with | some f => f :: r2.2.2.1 | none => r2.2.2.1),
      r2.2.2.2 + 1)

end Scheduler

/-- A Python exception value (the class/message of a raised exception). -/
structure PyErr where
  msg : String
deriving DecidableEq, Repr

/-- A Python object as observed by ClockLayer._current_temp: its
truthiness (for the `or ""` fallback) and the result of str(value),
which itself may raise. -/
structure PyVal where
  truthy : Bool
  str : Except PyErr String

/-- A Python string as a PyVal: truthy iff non-empty, str() returns it. -/
def strPyVal (s : String) : PyVal := ⟨decide (s ≠ ""), Except.ok s⟩

/-- Python str.strip(): drop whitespace from both ends. -/
def pyStrip (s : String) : String :=
  String.mk (((s.data.dropWhile Char.isWhitespace).reverse.dropWhile Char.isWhitespace).reverse)

/-- State of weatherstream/layers/clock.py ClockLayer. The surface is
abstracted: what the clock draws is a deterministic function of the
(time, date, temp) state tuple, so hash(surface.tobytes()) is modelled
collision-free by the tuple itself, and lastHash models _last_hash. -/
structure ClockLayer where
  w : Nat
  h : Nat
  visible : Bool
  lastHash : Option (String × String × String)
  state : Option (String × String × String)

namespace ClockLayer

/-- Layer.set_visible (core/layer.py lines 40-47) as inherited by
ClockLayer: identical body, acting on the clock's fields. -/
def set_visible (L : ClockLayer) (v : Bool) : ClockLayer :=
  if v = L.visible then L
  else
    let L1 : ClockLayer := { L with visible := v }
    if v then { L1 with lastHash := none } else L1

/-- ClockLayer._current_temp (clock.py lines 46-53): a raising supplier
call is caught inside the try and replaced by "", and a falsy result is
replaced by "" as well; but str(value).strip() runs OUTSIDE the try, so
an exception raised by str(value) propagates. A supplier argument of
none models a non-callable temp_supplier. -/
def current_temp (supplier : Option (Except PyErr PyVal)) : Except PyErr String :=
  match supplier with
  | none => Except.ok ""
  | some res =>
    let value : PyVal :=
      match res with
      | Except.error _ => strPyVal ""
      | Except.ok v => if v.truthy then v else strPyVal ""
    match value.str with
    | Except.error e => Except.error e
    | Except.ok s => Except.ok (pyStrip s)

/-- ClockLayer.tick (clock.py lines 55-95). The wall-clock strings are
passed in (now_local().strftime results), the temp supplier and the
block of PIL drawing calls are modelled as Except-valued inputs since
both may raise; there is no try/except anywhere in tick itself. When
the freshly computed state tuple equals _state, tick returns [] without
touching the surface or the cached hash; otherwise it stores the state,
draws, and runs _mark_all_dirty_if_changed (core/layer.py lines 31-37),
whose hash of the just-drawn surface is the state tuple in this model. -/
def tick (L : ClockLayer) (time_str date_str : String)
    (supplier : Option (Except PyErr PyVal)) (drawRes : Except PyErr Unit) :
    Except PyErr (List DirtyRect × ClockLayer) :=
  match current_temp supplier with
  | Except.error e => Except.error e
  | Except.ok temp_str =>
    let st := (time_str, date_str, temp_str)
    if L.state = some st then Except.ok ([], L)
    else
      match drawRes with
      | Except.error e => Except.error e
      | Except.ok _ =>
        let L1 : ClockLayer := { L with state := some st }
        if L1.lastHash = some st then Except.ok ([], L1)
        else Except.ok ([((0, 0, L.w, L.h) : DirtyRect)], { L1 with lastHash := some st })

end ClockLayer

/-- State of weatherstream/core/datastore.py DataStore: the fetch
interval and the current snapshot (a string-keyed mapping, modelled as
an association list). Thread interleaving is not modelled; the fetch
loop body is exercised on an explicit list of fetch outcomes. -/
structure DataStore where
  interval : ℚ
  data : List (String × String)

namespace DataStore

/-- Body of one iteration of the loop in DataStore.start (datastore.py
lines 17-25), data update only: on success the snapshot is wholesale
replaced by the fetched mapping (a falsy result, modelled by none,
becomes the empty dict via the `or` fallback); on any exception the
snapshot is left untouched and the loop keeps running. -/
def loop_step (d : List (String × String))
    (fetched : Except PyErr (Option (List (String × String)))) : List (String × String) :=
  match fetched with
  | Except.error _ => d
  | Except.ok v => v.getD []

/-- One full loop iteration: the data update followed by
time.sleep(self.interval), which runs unconditionally (line 25) — the
returned rational is the duration slept before the retry. -/
def iter (ds : DataStore) (fetched : Except PyErr (Option (List (String × String)))) :
    DataStore × ℚ :=
  ({ ds with data := loop_step ds.data fetched }, ds.interval)

/-- The fetch loop run over a finite schedule of fetch outcomes. -/
def run (ds : DataStore) (rs : List (Except PyErr (Option (List (String × String))))) :
    DataStore :=
  rs.foldl (fun s r => (iter s r).1) ds

/-- DataStore.read (datastore.py lines 34-36): returns a copy of the
snapshot; copying is the identity under value semantics. -/
def read (ds : DataStore) : List (String × String) := ds.data

end DataStore

namespace FFMPEGStreamer

/-- The queue bound stored by FFMPEGStreamer.__init__ (stream_ffmpeg.py
line 95): self.max_queue = max(1, int(max_queue)). -/
def maxQueueOf (max_queue : Int) : Nat := (max 1 max_queue).toNat

/-- The enqueue path of FFMPEGStreamer.send (stream_ffmpeg.py lines
487-495) with drop_when_behind: queue.Queue(maxsize=maxq).put_nowait
succeeds iff the depth is below maxq; on queue.Full the frame payload
is dropped and send returns False. -/
def sendEnqueue (maxq : Nat) (q : List (List Nat)) (payload : List Nat) :
    Bool × List (List Nat) :=
  if q.length < maxq then (true, q ++ [payload]) else (false, q)

/-- Queue contents after a whole sequence of send calls. -/
def sendAll (maxq : Nat) (q : List (List Nat)) (ps : List (List Nat)) : List (List Nat) :=
  ps.foldl (fun qq p => (sendEnqueue maxq qq p).2) q

/-- Check that the first character list starts the second. -/
def leadsWith : List Char → List Char → Bool
  | [], _ => true
  | _ :: _, [] => false
  | a :: as, b :: bs => a == b && leadsWith as bs

/-- Check that the first character list occurs contiguously in the second. -/
def hasSubstr (n : List Char) : List Char → Bool
  | [] => n.isEmpty
  | c :: t => leadsWith n (c :: t) || hasSubstr n t

/-- Python substring containment (the `in` operator on str). -/
def pyIn (needle hay : String) : Bool := hasSubstr needle.data hay.data

/-- Characters urlparse admits inside a scheme after the first. -/
def schemeChar (c : Char) : Bool := c.isAlphanum || c = '+' || c = '-' || c = '.'

/-- Scheme extraction of urllib.parse.urlparse as used by _dest
(stream_ffmpeg.py lines 228-229): the lowercased part before the first
colon when it is a valid scheme (letter first, then letters, digits,
plus, minus, dot), else the empty string. -/
def urlScheme (url : String) : String :=
  let cs := url.data
  if cs.contains ':' then
    match cs.takeWhile (fun c => c != ':') with
    | [] => ""
    | c :: rest =>
      if c.isAlpha && rest.all schemeChar then
        String.mk ((c :: rest).map Char.toLower)
      else ""
  else ""

/-- The udp branch of FFMPEGStreamer._dest (stream_ffmpeg.py lines
233-237): when the URL lacks a pkt_size= substring, append one with the
configured packet size, choosing the separator by whether the URL
already has a query string; otherwise leave the URL unmodified. The
constructor default for udp_pkt_size is 1316 (line 44). -/
def udpDest (udp_pkt_size : Nat) (url : String) : String :=
  if pyIn "pkt_size=" url then url
  else url ++ (if pyIn "?" url then "&" else "?") ++ "pkt_size=" ++ toString udp_pkt_size

end FFMPEGStreamer

/-- A compositor state whose two buffers hold different contents, as
after any compose that changed the frame: front is the previous frame
(black), back is the freshly composed one (white). -/
def swapComp : Compositor :=
  { w := 2, h := 2
    front := fun _ _ => ⟨0, 0, 0, 255⟩
    back := fun _ _ => ⟨255, 255, 255, 255⟩ }

/-- A freshly constructed compositor: both buffers opaque black. -/
def presEq : Compositor := Compositor.init 2 2

/-- Visible full-canvas blue layer at z = 0. -/
def layerBlue : Layer :=
  { x := 0, y := 0, w := 4, h := 4, min_interval := 1
    surface := fun _ _ => ⟨0, 0, 255, 255⟩
    lastHash := none, visible := true, scale := 1, z := 0, tick := fun _ => [] }

/-- Visible full-canvas red layer at z = 1 (higher priority). -/
def layerRed : Layer :=
  { layerBlue with z := 1, surface := fun _ _ => ⟨255, 0, 0, 255⟩ }

/-- A 4x4 canvas for the painter's-algorithm check. -/
def compW : Compositor := Compositor.init 4 4

/-- A clock layer that has not yet drawn anything. -/
def clockFresh : ClockLayer :=
  { w := 520, h := 200, visible := true, lastHash := none, state := none }

/-- A concrete drawing exception (a PIL draw call raising). -/
def drawErr : PyErr := ⟨"ImageDraw failure"⟩

/-- The state tuple of a clock with no temp supplier at a fixed second. -/
def tupleC5 : String × String × String := ("1:30:05 PM", "Sunday, October 12", "")

/-- A clock layer that has already drawn tupleC5 (its _state and its
surface hash both reflect it), as after a previous tick in the same
wall-clock second. -/
def clockDrawn : ClockLayer :=
  { w := 520, h := 200, visible := true, lastHash := some tupleC5, state := some tupleC5 }

/-- A base layer fresh from the constructor (visible, no cached hash). -/
def lW : Layer := Layer.init 0 0 10 10 1 1

/-! Helper lemmas. -/

theorem channel_opaque (c d : Nat) : (c * 255 + d * (255 - 255)) / 255 = c := by
  rw [Nat.sub_self, Nat.mul_zero, Nat.add_zero, Nat.mul_div_cancel]
  norm_num

theorem channel_transparent (c d : Nat) : (c * 0 + d * (255 - 0)) / 255 = d := by
  rw [Nat.mul_zero, Nat.zero_add, Nat.sub_zero, Nat.mul_div_cancel]
  norm_num

theorem blend_opaque (src dst : Pixel) (h : src.a = 255) : blend src dst = src := by
  cases src with
  | mk r g b a =>
    cases h
    show Pixel.mk _ _ _ _ = _
    simp only [blend, channel_opaque]

theorem blend_transparent (src dst : Pixel) (h : src.a = 0) : blend src dst = dst := by
  cases src with
  | mk r g b a =>
    cases h
    cases dst
    show Pixel.mk _ _ _ _ = _
    simp only [blend, channel_transparent]

namespace Compositor

theorem paintLayer_not_affects (w h : Nat) (f : Frame) (L : Layer) (px py : Int)
    (hn : ¬ affects w h L px py) : paintLayer w h f L px py = f px py := by
  unfold paintLayer
  cases hv : L.visible with
  | false => rw [if_pos rfl]
  | true =>
    rw [if_neg (by decide)]
    by_cases hz : L.w = 0 ∨ L.h = 0
    · rw [if_pos hz]
    · rw [if_neg hz]
      by_cases hin : inCanvas w h px py ∧ inBounds L px py
      · have ha : (L.surface (px - L.x) (py - L.y)).a = 0 := by
          by_contra ha0
          exact hn ⟨hv, Nat.pos_of_ne_zero (fun hw0 => hz (Or.inl hw0)),
            Nat.pos_of_ne_zero (fun hh0 => hz (Or.inr hh0)), hin.1, hin.2, ha0⟩
        rw [if_pos hin, blend_transparent _ _ ha]
      · rw [if_neg hin]

theorem foldl_paint_not_affects (w h : Nat) (ls : List Layer) (px py : Int)
    (hn : ∀ L ∈ ls, ¬ affects w h L px py) :
    ∀ f : Frame, (ls.foldl (paintLayer w h) f) px py = f px py := by
  induction ls with
  | nil => intro f; rfl
  | cons L rest ih =>
    intro f
    have h1 : (rest.foldl (paintLayer w h) (paintLayer w h f L)) px py
        = (paintLayer w h f L) px py :=
      ih (fun M hM => hn M (List.mem_cons_of_mem _ hM)) _
    calc ((L :: rest).foldl (paintLayer w h) f) px py
        = (rest.foldl (paintLayer w h) (paintLayer w h f L)) px py := rfl
      _ = (paintLayer w h f L) px py := h1
      _ = f px py := paintLayer_not_affects w h f L px py (hn L (List.mem_cons_self _ _))

theorem paintLayer_opaque (w h : Nat) (f : Frame) (L : Layer) (px py : Int)
    (hv : L.visible = true) (hw : 0 < L.w) (hh : 0 < L.h)
    (hc : inCanvas w h px py) (hb : inBounds L px py)
    (ha : (L.surface (px - L.x) (py - L.y)).a = 255) :
    paintLayer w h f L px py = L.surface (px - L.x) (py - L.y) := by
  unfold paintLayer
  rw [hv, if_neg (by decide)]
  rw [if_neg (by
    intro hz
    rcases hz with hz | hz
    · exact absurd hz hw.ne'
    · exact absurd hz hh.ne')]
  rw [if_pos ⟨hc, hb⟩, blend_opaque _ _ ha]

end Compositor

namespace FFMPEGStreamer

theorem sendAll_length_le (maxq : Nat) (ps : List (List Nat)) :
    ∀ q : List (List Nat), q.length ≤ maxq → (sendAll maxq q ps).length ≤ maxq := by
  induction ps with
  | nil => intro q hq; exact hq
  | cons p rest ih =>
    intro q hq
    show (sendAll maxq ((sendEnqueue maxq q p).2) rest).length ≤ maxq
    apply ih
    unfold sendEnqueue
    by_cases hlt : q.length < maxq
    · rw [if_pos hlt]
      simpa using hlt
    · rw [if_neg hlt]
      exact hq

theorem leadsWith_self_append (n b : List Char) : leadsWith n (n ++ b) = true := by
  induction n with
  | nil => rfl
  | cons a as ih => simp [leadsWith, ih]

theorem hasSubstr_self_append (n b : List Char) : hasSubstr n (n ++ b) = true := by
  cases n with
  | nil =>
    cases b with
    | nil => rfl
    | cons c t => simp [hasSubstr, leadsWith]
  | cons a as =>
    simp only [hasSubstr, Bool.or_eq_true]
    exact Or.inl (by simpa using leadsWith_self_append (a :: as) b)

theorem hasSubstr_append_left (a n b : List Char) : hasSubstr n (a ++ (n ++ b)) = true := by
  induction a with
  | nil => simpa using hasSubstr_self_append n b
  | cons x xs ih => simp [hasSubstr, ih]

theorem strData_append (s t : String) : (s ++ t).data = s.data ++ t.data := by
  cases s
  cases t
  rfl

theorem strAppend_assoc (a b c : String) : a ++ b ++ c = a ++ (b ++ c) := by
  cases a with
  | mk as =>
    cases b with
    | mk bs =>
      cases c with
      | mk cs =>
        show String.mk (as ++ bs ++ cs) = String.mk (as ++ (bs ++ cs))
        rw [List.append_assoc]

end FFMPEGStreamer

/-! Claim theorems. -/

/-- Claim C1: the claim says Scheduler.run_forever evaluates an
externally-supplied should-stop predicate before each sleep and returns
when it is true. The code (scheduler.py lines 20-47) is while True with
no break, no return and no stop-predicate parameter, so the embedded
loop executes one iteration for every wall-clock reading it is driven
with and can never exit early: the iteration count always equals the
length of the schedule, for every scheduler state and compositor. -/
theorem Scheduler.run_forever_never_stops (times : List ℚ) :
    ∀ (s : Scheduler) (c : Compositor),
      (Scheduler.run_forever s c times).2.2.2 = times.length := by
  induction times with
  | nil => intro s c; rfl
  | cons t ts ih =>
    intro s c
    show (Scheduler.run_forever s c (t :: ts)).2.2.2 = ts.length + 1
    simp only [Scheduler.run_forever]
    rw [ih]

/-- Claim C2 counterexample: with front and back holding different
contents (front black, back white — the normal situation right after a
compose), present() twice with no intervening compose() does NOT return
bit-identical buffers: the first call returns the white back buffer,
the second returns the original black front buffer, and they differ at
pixel (0, 0). -/
theorem Compositor.present_twice_counterexample :
    (Compositor.present (Compositor.present swapComp).1).2 0 0
      ≠ (Compositor.present swapComp).2 0 0 := by
  decide

/-- Claim C2 amended: present() swaps front and back and returns the
new front; a second present() with no intervening compose() undoes the
swap (present is an involution on the buffer pair) and returns the
original front buffer, so the two calls return bit-identical buffers
exactly when front and back already held identical contents (e.g. on a
freshly constructed compositor); the scheduler re-presents an unchanged
frame by reading the front buffer directly instead of calling present
again. -/
theorem Compositor.present_swap_behavior (c : Compositor) :
    (Compositor.present c).2 = c.back ∧
    (Compositor.present (Compositor.present c).1).2 = c.front ∧
    (Compositor.present (Compositor.present c).1).1 = c ∧
    (c.front = c.back →
      (Compositor.present (Compositor.present c).1).2 = (Compositor.present c).2) := by
  refine ⟨rfl, rfl, ?_, fun h => ?_⟩
  · cases c
    rfl
  · show c.front = c.back
    exact h

/-- Witness for C2: on a freshly constructed compositor front equals
back, and there the two present() results do coincide. -/
theorem Compositor.present_swap_behavior_witness :
    presEq.front = presEq.back ∧
    (Compositor.present (Compositor.present presEq).1).2 = (Compositor.present presEq).2 :=
  ⟨rfl, (Compositor.present_swap_behavior presEq).2.2.2 rfl⟩

/-- Claim C7: when a fetch-loop iteration's fetch raises, the stored
snapshot is left exactly as it was and the iteration still sleeps the
same fixed interval before retrying; and in the spec's scenario C (a
successful fetch of d1 followed by a raising fetch), read() after the
failed iteration still returns d1, the value of the last successful
fetch. -/
theorem DataStore.fetch_failure_retains_snapshot (ds : DataStore) (e : PyErr)
    (r : Except PyErr (Option (List (String × String)))) (d1 : List (String × String)) :
    DataStore.loop_step ds.data (Except.error e) = ds.data ∧
    (DataStore.iter ds (Except.error e)).1.data = ds.data ∧
    (DataStore.iter ds r).2 = ds.interval ∧
    DataStore.read (DataStore.run ⟨1, []⟩ [Except.ok (some d1), Except.error e]) = d1 :=
  ⟨rfl, rfl, rfl, rfl⟩

/-- Claim C9: whatever min_interval argument the Layer constructor
receives (zero, negative or sub-millisecond included), the stored
cadence is clamped to at least 0.001 seconds, so the scheduler's
re-enqueued heap deadline now + min_interval is strictly greater than
the tick time now — successive wake deadlines strictly increase
(arithmetic modelled exactly over the rationals). -/
theorem Layer.min_interval_clamped (x y : Int) (w h : Nat) (mi sc : ℚ) (now : ℚ) :
    1/1000 ≤ (Layer.init x y w h mi sc).min_interval ∧
    now < Scheduler.requeueDeadline now (Layer.init x y w h mi sc) := by
  constructor
  · show (1:ℚ)/1000 ≤ max (1/1000) mi
    exact le_max_left _ _
  · show now < now + (Layer.init x y w h mi sc).min_interval
    have h1 : (0:ℚ) < (Layer.init x y w h mi sc).min_interval := by
      show (0:ℚ) < max (1/1000) mi
      exact lt_of_lt_of_le (by norm_num) (le_max_left _ _)
    linarith

/-- Claim C10: set_visible(v) with v equal to the current visibility is
a complete no-op (early return leaves the whole layer, hash included,
unchanged); the visibility flag always ends up equal to v; and the
cached content hash is cleared exactly on a hidden-to-visible
transition, in particular repeated set_visible(true) on a visible layer
does not invalidate it. -/
theorem Layer.set_visible_same_noop (L : Layer) (v : Bool) :
    (v = L.visible → Layer.set_visible L v = L) ∧
    (Layer.set_visible L v).visible = v ∧
    (Layer.set_visible L v).lastHash =
      (if L.visible = false ∧ v = true then none else L.lastHash) := by
  cases hLv : L.visible <;> cases hb : v <;>
    simp_all [Layer.set_visible]

/-- Witness for C10: a freshly constructed layer is visible, and
set_visible(true) on it changes nothing. -/
theorem Layer.set_visible_same_noop_witness :
    true = lW.visible ∧ Layer.set_visible lW true = lW :=
  ⟨rfl, (Layer.set_visible_same_noop lW true).1 rfl⟩

/-- Claim C3 counterexample: ClockLayer.tick has no try/except around
its drawing, so when a PIL draw call raises, the exception escapes tick
(the result is the raised error, not an empty dirty-rect list), and the
scheduler loop at scheduler.py line 32 does not catch it either. -/
theorem ClockLayer.tick_draw_error_escapes :
    ClockLayer.tick clockFresh "1:30:05 PM" "Sunday, October 12" none (Except.error drawErr)
      = Except.error drawErr := rfl

/-- Claim C3 amended: only exceptions raised by calling the temp
supplier are absorbed inside _current_temp (clock.py lines 48-51),
where a raising supplier behaves exactly like having no supplier at
all; tick itself has no exception guard, so a drawing error raised
inside tick propagates out of it into the scheduler loop, which also
does not catch it. -/
theorem ClockLayer.tick_supplier_error_absorbed (L : ClockLayer) (t d : String)
    (ev : PyErr) (dr : Except PyErr Unit) :
    ClockLayer.tick L t d (some (Except.error ev)) dr = ClockLayer.tick L t d none dr := rfl

/-- Claim C5: the claim says that after set_visible(false) then
set_visible(true) the very next tick reports dirty even with unchanged
data, because the transition clears the cached hash. On ClockLayer the
forcing fails: tick compares its freshly built state tuple with _state
BEFORE consulting the cached hash (clock.py lines 61-63), so at the
failing input — a clock that already drew this second's state, hidden
and re-shown within the same second — the next tick returns the empty
dirty-rect list and the stale surface is never re-reported. -/
theorem ClockLayer.hidden_to_visible_tick_not_dirty :
    ClockLayer.tick (ClockLayer.set_visible (ClockLayer.set_visible clockDrawn false) true)
        "1:30:05 PM" "Sunday, October 12" none (Except.ok ())
      = Except.ok ([],
          ClockLayer.set_visible (ClockLayer.set_visible clockDrawn false) true) := rfl

/-- Claim C6: with the bounded queue at its configured capacity
max(1, max_queue), send's enqueue path returns False (not delivered)
and drops the offered frame leaving the queue unchanged, and no
sequence of send operations ever pushes the queue depth beyond that
capacity. -/
theorem FFMPEGStreamer.send_full_queue_drops (max_queue : Int) (q : List (List Nat))
    (p : List Nat) (ps : List (List Nat))
    (hfull : q.length = FFMPEGStreamer.maxQueueOf max_queue) :
    (FFMPEGStreamer.sendEnqueue (FFMPEGStreamer.maxQueueOf max_queue) q p).1 = false ∧
    (FFMPEGStreamer.sendEnqueue (FFMPEGStreamer.maxQueueOf max_queue) q p).2 = q ∧
    (∀ q0 : List (List Nat), q0.length ≤ FFMPEGStreamer.maxQueueOf max_queue →
      (FFMPEGStreamer.sendAll (FFMPEGStreamer.maxQueueOf max_queue) q0 ps).length
        ≤ FFMPEGStreamer.maxQueueOf max_queue) := by
  have hnl : ¬ q.length < FFMPEGStreamer.maxQueueOf max_queue := by
    rw [hfull]
    exact lt_irrefl _
  refine ⟨?_, ?_, fun q0 h0 => FFMPEGStreamer.sendAll_length_le _ ps q0 h0⟩
  · show (if q.length < FFMPEGStreamer.maxQueueOf max_queue
        then (true, q ++ [p]) else (false, q)).1 = false
    rw [if_neg hnl]
  · show (if q.length < FFMPEGStreamer.maxQueueOf max_queue
        then (true, q ++ [p]) else (false, q)).2 = q
    rw [if_neg hnl]

/-- Witness for C6: a sink configured with max_queue = 2 whose queue
already holds two frames refuses the third. -/
theorem FFMPEGStreamer.send_full_queue_drops_witness :
    ([[1], [2]] : List (List Nat)).length = FFMPEGStreamer.maxQueueOf 2 ∧
    (FFMPEGStreamer.sendEnqueue (FFMPEGStreamer.maxQueueOf 2) [[1], [2]] [3]).1 = false :=
  ⟨by decide, (FFMPEGStreamer.send_full_queue_drops 2 [[1], [2]] [3] [] (by decide)).1⟩

/-- Claim C4: the composition pipeline (Scheduler.__init__ sorts the
layers ascending by the per-layer z priority field, Compositor.compose
then paints them in that order, skipping invisible layers and zero-area
bounds) implements the painter's algorithm: for layers with pairwise
distinct z, at any canvas pixel inside a visible, non-zero-area layer B
whose surface is opaque there, and which no strictly-higher-z layer
affects at that pixel, the composed frame carries B's pixel — every
lower-z layer whose bounds overlap there has been overridden,
regardless of insertion order. -/
theorem Scheduler.compose_z_order (c : Compositor) (ls : List Layer) (B : Layer)
    (px py : Int)
    (hdist : ls.Pairwise (fun A A2 => A.z ≠ A2.z))
    (hB : B ∈ ls) (hvis : B.visible = true) (hw : 0 < B.w) (hh : 0 < B.h)
    (hcv : Compositor.inCanvas c.w c.h px py) (hbd : Compositor.inBounds B px py)
    (hop : (B.surface (px - B.x) (py - B.y)).a = 255)
    (habove : ∀ L ∈ ls, B.z < L.z → ¬ Compositor.affects c.w c.h L px py) :
    (Scheduler.schedCompose c ls).back px py = B.surface (px - B.x) (py - B.y) := by
  have hperm : List.Perm (List.insertionSort Scheduler.zle ls) ls :=
    List.perm_insertionSort Scheduler.zle ls
  have hmem : B ∈ Scheduler.sortLayers ls := by
    unfold Scheduler.sortLayers
    exact hperm.mem_iff.mpr hB
  obtain ⟨l1, l2, hsplit⟩ := List.append_of_mem hmem
  have hsorted : List.Pairwise Scheduler.zle (Scheduler.sortLayers ls) :=
    List.sorted_insertionSort Scheduler.zle ls
  have hpair : (Scheduler.sortLayers ls).Pairwise (fun A A2 => A.z ≠ A2.z) :=
    (hperm.pairwise_iff (fun hxy => Ne.symm hxy)).mpr hdist
  rw [hsplit] at hsorted hpair
  have hz2 : ∀ L ∈ l2, B.z < L.z := by
    intro L hL
    have hle : Scheduler.zle B L :=
      (List.pairwise_cons.mp (List.pairwise_append.mp hsorted).2.1).1 L hL
    have hne : B.z ≠ L.z :=
      (List.pairwise_cons.mp (List.pairwise_append.mp hpair).2.1).1 L hL
    exact lt_of_le_of_ne hle hne
  have hno : ∀ L ∈ l2, ¬ Compositor.affects c.w c.h L px py := by
    intro L hL
    have hmem2 : L ∈ Scheduler.sortLayers ls := by
      rw [hsplit]
      exact List.mem_append_right _ (List.mem_cons_of_mem _ hL)
    exact habove L (hperm.mem_iff.mp hmem2) (hz2 L hL)
  show (Compositor.compose c (Scheduler.sortLayers ls)).back px py = _
  rw [hsplit]
  calc (Compositor.compose c (l1 ++ B :: l2)).back px py
      = ((l1 ++ B :: l2).foldl (Compositor.paintLayer c.w c.h)
          (Compositor.clearFrame c.w c.h c.back)) px py := rfl
    _ = ((B :: l2).foldl (Compositor.paintLayer c.w c.h)
          (l1.foldl (Compositor.paintLayer c.w c.h)
            (Compositor.clearFrame c.w c.h c.back))) px py := by
        rw [List.foldl_append]
    _ = (l2.foldl (Compositor.paintLayer c.w c.h)
          (Compositor.paintLayer c.w c.h
            (l1.foldl (Compositor.paintLayer c.w c.h)
              (Compositor.clearFrame c.w c.h c.back)) B)) px py := rfl
    _ = (Compositor.paintLayer c.w c.h
          (l1.foldl (Compositor.paintLayer c.w c.h)
            (Compositor.clearFrame c.w c.h c.back)) B) px py :=
        Compositor.foldl_paint_not_affects c.w c.h l2 px py hno _
    _ = B.surface (px - B.x) (py - B.y) :=
        Compositor.paintLayer_opaque c.w c.h _ B px py hvis hw hh hcv hbd hop

/-- Witness for C4: red (z = 1) and blue (z = 0) full-canvas opaque
layers registered in the order [red, blue]; at pixel (1, 1), where both
bounds overlap, the pipeline composition carries red's pixel — the z
field, not insertion order, decided it. -/
theorem Scheduler.compose_z_order_witness :
    ([layerRed, layerBlue].Pairwise (fun A A2 => A.z ≠ A2.z)) ∧
    (Scheduler.schedCompose compW [layerRed, layerBlue]).back 1 1 = Pixel.mk 255 0 0 255 := by
  refine ⟨by decide, ?_⟩
  exact Scheduler.compose_z_order compW [layerRed, layerBlue] layerRed 1 1
    (by decide) (List.mem_cons_self _ _) rfl (by decide) (by decide)
    (by decide) (by decide) rfl (by decide)

/-- Claim C8: for a destination URL whose urlparse scheme is udp, the
transport-configuration builder leaves the URL unmodified when it
already contains a pkt_size parameter, and otherwise yields the URL
with pkt_size=1316 appended (1316 being the constructor default packet
size), after the appropriate query separator — in particular the result
then does contain pkt_size=. -/
theorem FFMPEGStreamer.udp_pkt_size_injection (url : String)
    (hscheme : FFMPEGStreamer.urlScheme url = "udp") :
    (FFMPEGStreamer.pyIn "pkt_size=" url = false →
      FFMPEGStreamer.udpDest 1316 url
        = url ++ (if FFMPEGStreamer.pyIn "?" url then "&" else "?") ++ "pkt_size=1316" ∧
      FFMPEGStreamer.pyIn "pkt_size=" (FFMPEGStreamer.udpDest 1316 url) = true) ∧
    (FFMPEGStreamer.pyIn "pkt_size=" url = true →
      FFMPEGStreamer.udpDest 1316 url = url) := by
  constructor
  · intro hno
    have hres : FFMPEGStreamer.udpDest 1316 url
        = url ++ (if FFMPEGStreamer.pyIn "?" url then "&" else "?")
            ++ "pkt_size=" ++ toString (1316 : Nat) := by
      unfold FFMPEGStreamer.udpDest
      rw [if_neg (by rw [hno]; exact Bool.false_ne_true)]
    have hcat : ("pkt_size=" : String) ++ toString (1316 : Nat) = "pkt_size=1316" := rfl
    refine ⟨?_, ?_⟩
    · rw [hres, FFMPEGStreamer.strAppend_assoc
        (url ++ (if FFMPEGStreamer.pyIn "?" url then "&" else "?")) "pkt_size="
        (toString (1316 : Nat)), hcat]
    · rw [hres]
      show FFMPEGStreamer.hasSubstr ("pkt_size=").data
        (url ++ (if FFMPEGStreamer.pyIn "?" url then "&" else "?")
          ++ "pkt_size=" ++ toString (1316 : Nat)).data = true
      rw [FFMPEGStreamer.strData_append, FFMPEGStreamer.strData_append,
        FFMPEGStreamer.strData_append, List.append_assoc]
      exact FFMPEGStreamer.hasSubstr_append_left _ _ _
  · intro hyes
    unfold FFMPEGStreamer.udpDest
    rw [if_pos hyes]

/-- Witness for C8: the spec's scenario D — udp://127.0.0.1:5000 gets
pkt_size=1316 appended; udp://127.0.0.1:5000?pkt_size=500 is left
unmodified. -/
theorem FFMPEGStreamer.udp_pkt_size_injection_witness :
    FFMPEGStreamer.urlScheme "udp://127.0.0.1:5000" = "udp" ∧
    FFMPEGStreamer.udpDest 1316 "udp://127.0.0.1:5000"
      = "udp://127.0.0.1:5000?pkt_size=1316" ∧
    FFMPEGStreamer.udpDest 1316 "udp://127.0.0.1:5000?pkt_size=500"
      = "udp://127.0.0.1:5000?pkt_size=500" := by
  refine ⟨by decide, ?_, ?_⟩
  · have h := (FFMPEGStreamer.udp_pkt_size_injection "udp://127.0.0.1:5000"
      (by decide)).1 (by decide)
    rw [h.1]
    decide
  · exact (FFMPEGStreamer.udp_pkt_size_injection "udp://127.0.0.1:5000?pkt_size=500"
      (by decide)).2 (by decide)

end Weatharr
